import Mathlib

/-!
Verification of the lines-of-battle game session server.

Shallow embedding of the Rust sources:
  * src/game/server_state.rs        -- ServerState and its predicates
  * src/actors/websocket_actor.rs   -- player session state and do_action
  * src/game/game_player.rs         -- engine driver tick loop, retries, Lua context
  * src/actors/game_mediator_actor.rs -- session coordinator (mediator) handlers
  * src/config.rs                   -- configuration clamping

Uuids, profile data, serialized game states, actor addresses and player
actions are opaque to the verified logic, so they are modelled as natural
numbers.  Rust HashMap values are modelled as association lists with
replace-on-insert semantics; HashSet values as lists without relying on
order.
-/

namespace LinesOfBattle

/-- Player identifier (128-bit UUID in the source), modelled opaquely. -/
abbrev Uuid := Nat

/-- Player profile data carried in the JWT token (name string), opaque here. -/
abbrev JWTPlayerData := Nat

/-- Serialized game state produced by the Lua engine, opaque to the host. -/
abbrev GameState := Nat

/-- Actor address (session handle), compared by identity. -/
abbrev Addr := Nat

/-- A player action (move / attack / dropWeapon payload), opaque here. -/
abbrev PlayerAction := Nat

/-! ### Association lists standing in for Rust HashMap -/

/-- HashMap::contains_key. -/
def containsKey (m : List (Nat × α)) (k : Nat) : Bool :=
  m.any (fun p => p.1 == k)

/-- HashMap::get, returning the first binding for the key. -/
def lookupKey (m : List (Nat × α)) (k : Nat) : Option α :=
  match m with
  | [] => none
  | p :: rest => if p.1 = k then some p.2 else lookupKey rest k

/-- HashMap::insert: replace the binding when the key is present, else append. -/
def insertHM (m : List (Nat × α)) (k : Nat) (v : α) : List (Nat × α) :=
  if containsKey m k then
    m.map (fun p => if p.1 = k then (k, v) else p)
  else
    m ++ [(k, v)]

/-- HashMap::remove. -/
def removeKey (m : List (Nat × α)) (k : Nat) : List (Nat × α) :=
  m.filter (fun p => p.1 ≠ k)

/-! ### ServerState (src/game/server_state.rs) -/

/-- The four server states of the game engine. -/
inductive ServerState where
  | registration
  | initializing
  | running
  | fatalError
deriving DecidableEq, Repr

/-- ServerState::can_change_registration. -/
def ServerState.can_change_registration : ServerState → Bool
  | .registration => true
  | .initializing => false
  | .running => false
  | .fatalError => false

/-- ServerState::can_send_action. -/
def ServerState.can_send_action : ServerState → Bool
  | .running => true
  | .registration => false
  | .initializing => false
  | .fatalError => false

theorem can_send_action_iff (s : ServerState) :
    s.can_send_action = true ↔ s = ServerState.running := by
  cases s <;> simp [ServerState.can_send_action]

/-! ### Player session (src/actors/websocket_actor.rs) -/

/-- Mutable per-session state of a WebsocketActor. -/
structure WsState where
  server_state : ServerState
  action_sent : Bool
  player_killed : Bool
deriving DecidableEq, Repr

/-- Result of WebsocketActor::do_action as observed by the client. -/
inductive ActionOutcome where
  | enqueued
  | cannotSendAction (why : String)
deriving DecidableEq, Repr

/-- WebsocketActor::do_action.  Returns the new session state, the outcome,
    and the list of pairs pushed onto the pending-action channel.
    channel_open models whether send_player_action.send succeeds. -/
def do_action (player_id : Uuid) (action : PlayerAction) (st : WsState)
    (channel_open : Bool) : WsState × ActionOutcome × List (Uuid × PlayerAction) :=
  if st.player_killed then
    (st, ActionOutcome.cannotSendAction "player has been killed", [])
  else if !st.server_state.can_send_action then
    (st, ActionOutcome.cannotSendAction "game has not started yet", [])
  else if st.action_sent then
    (st, ActionOutcome.cannotSendAction "already sent player action", [])
  else if channel_open then
    ({ st with action_sent := true }, ActionOutcome.enqueued, [(player_id, action)])
  else
    (st, ActionOutcome.cannotSendAction "channel error", [])

/-! ### Game engine driver (src/game/game_player.rs) -/

/-- MAX_TRIES constant from game_player.rs. -/
def MAX_TRIES : Nat := 5

/-- Messages the engine driver sends to the mediator
    (shared_messages.rs constructors, payloads kept structurally). -/
inductive DriverMsg where
  | initState (game_state : GameState) (seconds_left : Nat)
  | nextState (game_state : GameState) (actions : List (Uuid × PlayerAction)) (seconds_left : Nat)
  | gameEnded (winners : List Uuid) (game_state : GameState) (actions : List (Uuid × PlayerAction))
  | playerKilled (id : Uuid)
  | engineCrash
deriving DecidableEq, Repr

/-- Whether a driver message is the GameEnded message. -/
def DriverMsg.isGameEnded : DriverMsg → Bool
  | .gameEnded _ _ _ => true
  | _ => false

/-- Drain of the pending-action channel for one tick (run_internal):
    try_iter is filtered by membership in players_remaining and collected
    into a HashMap, whose insert replaces the value on a duplicate key. -/
def collect_player_actions (pending : List (Uuid × PlayerAction))
    (players_remaining : List Uuid) : List (Uuid × PlayerAction) :=
  (pending.filter (fun p => players_remaining.contains p.1)).foldl
    (fun m p => insertHM m p.1 p.2) []

/-- The notifyPlayerKilled method added to the Lua context handle
    (LuaUserData for GamePlayerUserData): remove the id from
    players_remaining and send PlayerKilled to the mediator.
    Returns the new remaining set and the messages sent. -/
def notifyPlayerKilled (players_remaining : List Uuid) (id : Uuid) :
    List Uuid × List DriverMsg :=
  (players_remaining.filter (fun x => x ≠ id), [DriverMsg.playerKilled id])

/-- The driver state carried across iterations of the tick loop. -/
structure DriverTickState where
  seconds_left : Nat
  players_remaining : List Uuid
deriving DecidableEq, Repr

/-- One iteration of the while loop in GamePlayer::run_internal, entered when
    seconds_left > 0.  pending is the content of the action channel since the
    previous tick; kills lists the ids for which the Lua script invoked
    notifyPlayerKilled during this Update call; next_state is the game state
    the (successful) Update call returned.  The result is the new driver
    state, the message sent to the mediator, and whether the while loop
    continues (its condition seconds_left > 0 re-checked at the top). -/
def run_tick (st : DriverTickState) (pending : List (Uuid × PlayerAction))
    (kills : List Uuid) (next_state : GameState) :
    DriverTickState × DriverMsg × Bool :=
  let seconds_left := st.seconds_left - 1
  let actions := collect_player_actions pending st.players_remaining
  let remaining := kills.foldl (fun s k => (notifyPlayerKilled s k).1) st.players_remaining
  if seconds_left > 0 then
    (⟨seconds_left, remaining⟩, DriverMsg.nextState next_state actions seconds_left, true)
  else
    (⟨seconds_left, remaining⟩, DriverMsg.gameEnded remaining next_state actions, false)

/-- The retry loop of GamePlayer::trap_errors, with the sequence of attempt
    outcomes given as a function of the attempt index.  tries is the number
    of attempts already made; budget is the number of retries still allowed
    (max_tries - 1 - tries in the source loop). -/
def trap_errors_go (attempts : Nat → Except Nat GameState) :
    Nat → Nat → Except Nat GameState
  | budget, tries =>
    match attempts tries with
    | Except.ok r => Except.ok r
    | Except.error e =>
      match budget with
      | 0 => Except.error e
      | b + 1 => trap_errors_go attempts b (tries + 1)

/-- GamePlayer::trap_errors: run attempts until one succeeds, retrying at
    most max_tries times in total. -/
def trap_errors (max_tries : Nat) (attempts : Nat → Except Nat GameState) :
    Except Nat GameState :=
  trap_errors_go attempts (max_tries - 1) 0

/-- GamePlayer::run_game: when run_internal surfaces a fatal engine error,
    send GameEngineCrash to the mediator; otherwise nothing is sent here. -/
def run_game_msgs (result : Except Nat Unit) : List DriverMsg :=
  match result with
  | Except.ok _ => []
  | Except.error _ => [DriverMsg.engineCrash]

/-! ### Session coordinator (src/actors/game_mediator_actor.rs, src/config.rs) -/

/-- Broadcast and notification payloads the mediator sends out
    (shared_messages.rs / websocket_messages.rs, pre-serialized in the
    source; kept structurally here). -/
inductive OutMsg where
  | waitingOnPlayers (players : List (Uuid × JWTPlayerData)) (min_players_needed : Nat)
  | gameStartingSoon (players : List (Uuid × JWTPlayerData)) (min_players_needed : Nat)
      (seconds_left : Nat)
  | gameStarting (players : List (Uuid × JWTPlayerData)) (player_order : List Uuid)
  | initBroadcast (payload : Nat)
  | nextStateBroadcast (payload : Nat)
  | playerKilledBroadcast (id : Uuid)
  | gameEndedBroadcast (payload : Nat)
  | engineCrashNotice
deriving DecidableEq, Repr

/-- A single routed output of a mediator handler. -/
inductive Effect where
  | toActor (a : Addr) (m : OutMsg)
  | toViewer (a : Addr) (m : OutMsg)
  | toEngine (player_order : List Uuid)
deriving DecidableEq, Repr

/-- Whether an effect is addressed to a viewer session. -/
def Effect.isToViewer : Effect → Bool
  | .toViewer _ _ => true
  | _ => false

/-- The state owned by GameMediatorActor. -/
structure MediatorState where
  server_state : ServerState
  registered : List (Uuid × JWTPlayerData)
  actors : List (Uuid × Addr)
  viewers : List Addr
  player_order : Option (List Uuid)
  min_players_required : Nat
  max_players_allowed : Nat
  lobby_wait_secs : Nat
  secs_left : Nat
deriving DecidableEq, Repr

/-- GameMediatorActor::broadcast_all: send a message to every connected
    player actor, then to every viewer. -/
def broadcast_all (st : MediatorState) (m : OutMsg) : List Effect :=
  st.actors.map (fun p => Effect.toActor p.2 m) ++
    st.viewers.map (fun a => Effect.toViewer a m)

/-- GameMediatorActor::broadcast_registration_update. -/
def broadcast_registration_update (st : MediatorState) : List Effect :=
  if st.registered.length < st.min_players_required then
    broadcast_all st (OutMsg.waitingOnPlayers st.registered st.min_players_required)
  else
    broadcast_all st
      (OutMsg.gameStartingSoon st.registered st.min_players_required st.secs_left)

/-- Response type of the Register message. -/
inductive RegisterResponse where
  | success
  | gameAlreadyStarted
  | tooManyRegistered (max_allowed : Nat)
deriving DecidableEq, Repr

/-- Handler of Register for GameMediatorActor. -/
def handle_register (st : MediatorState) (id : Uuid) (data : JWTPlayerData) :
    MediatorState × List Effect × RegisterResponse :=
  if st.server_state.can_change_registration = false then
    (st, [], RegisterResponse.gameAlreadyStarted)
  else
    let not_enough_before := st.registered.length < st.min_players_required
    if containsKey st.registered id = false ∧
        st.max_players_allowed ≤ st.registered.length then
      (st, [], RegisterResponse.tooManyRegistered st.max_players_allowed)
    else
      let st1 := if containsKey st.registered id = false then
          { st with registered := insertHM st.registered id data }
        else st
      let st2 := if not_enough_before ∧
          st.min_players_required ≤ st1.registered.length then
          { st1 with secs_left := st1.lobby_wait_secs }
        else st1
      (st2, broadcast_registration_update st2, RegisterResponse.success)

/-- Handler of Unregister for GameMediatorActor. -/
def handle_unregister (st : MediatorState) (id : Uuid) :
    MediatorState × List Effect × Bool :=
  if st.server_state.can_change_registration = false then
    (st, [], false)
  else
    let st1 := { st with registered := removeKey st.registered id }
    (st1, broadcast_registration_update st1, true)

/-- Response type of the Connect message. -/
inductive ConnectResponse where
  | ok (state : ServerState)
  | notRegistered
  | alreadyConnected
deriving DecidableEq, Repr

/-- Handler of Connect for GameMediatorActor. -/
def handle_connect (st : MediatorState) (id : Uuid) (addr : Addr) :
    MediatorState × ConnectResponse :=
  if containsKey st.actors id then
    (st, ConnectResponse.alreadyConnected)
  else if st.server_state.can_change_registration = false ∧
      containsKey st.registered id = false then
    (st, ConnectResponse.notRegistered)
  else
    ({ st with actors := insertHM st.actors id addr }, ConnectResponse.ok st.server_state)

/-- Handler of Disconnect for GameMediatorActor: remove the entry only when
    the stored handle equals the one provided. -/
def handle_disconnect (st : MediatorState) (id : Uuid) (addr : Addr) : MediatorState :=
  match lookupKey st.actors id with
  | some a => if a = addr then { st with actors := removeKey st.actors id } else st
  | none => st

/-- Handler of ConnectViewer for GameMediatorActor (HashSet::insert). -/
def handle_connect_viewer (st : MediatorState) (addr : Addr) :
    MediatorState × ServerState :=
  (if st.viewers.contains addr then st
   else { st with viewers := st.viewers ++ [addr] }, st.server_state)

/-- Handler of DisconnectViewer for GameMediatorActor (HashSet::remove). -/
def handle_disconnect_viewer (st : MediatorState) (addr : Addr) : MediatorState :=
  { st with viewers := st.viewers.filter (fun a => a ≠ addr) }

/-- Handler of Init for GameMediatorActor. -/
def handle_init (st : MediatorState) (payload : Nat) : MediatorState × List Effect :=
  let st1 := { st with server_state := ServerState.running }
  (st1, broadcast_all st1 (OutMsg.initBroadcast payload))

/-- Handler of NextState for GameMediatorActor. -/
def handle_next_state (st : MediatorState) (payload : Nat) : MediatorState × List Effect :=
  (st, broadcast_all st (OutMsg.nextStateBroadcast payload))

/-- Handler of PlayerKilled for GameMediatorActor. -/
def handle_player_killed (st : MediatorState) (id : Uuid) : MediatorState × List Effect :=
  (st, broadcast_all st (OutMsg.playerKilledBroadcast id))

/-- Handler of GameEnded for GameMediatorActor: clear the registration set
    and the player order, return to Registration, then broadcast. -/
def handle_game_ended (st : MediatorState) (payload : Nat) : MediatorState × List Effect :=
  let st1 := { st with registered := [], player_order := none,
                       server_state := ServerState.registration }
  (st1, broadcast_all st1 (OutMsg.gameEndedBroadcast payload))

/-- Handler of GameEngineCrash for GameMediatorActor: enter FatalError,
    clear the player order, and forward the crash to the connected player
    actors (the source iterates self.actors only). -/
def handle_game_engine_crash (st : MediatorState) : MediatorState × List Effect :=
  let st1 := { st with server_state := ServerState.fatalError, player_order := none }
  (st1, st1.actors.map (fun p => Effect.toActor p.2 OutMsg.engineCrashNotice))

/-- GameMediatorActor::start_game. -/
def start_game (st : MediatorState) : MediatorState × List Effect :=
  let player_order := st.registered.map (fun p => p.1)
  let st1 := { st with player_order := some player_order,
                       server_state := ServerState.initializing }
  (st1, broadcast_all st1 (OutMsg.gameStarting st1.registered player_order) ++
        [Effect.toEngine player_order])

/-- GameMediatorActor::tick_registration_update, run once per second. -/
def tick_registration_update (st : MediatorState) : MediatorState × List Effect :=
  if st.server_state ≠ ServerState.registration then
    (st, [])
  else if st.registered.length < st.min_players_required then
    (st, [])
  else
    let st1 := { st with secs_left := st.secs_left - 1 }
    if st1.secs_left = 0 then start_game st1
    else (st1, broadcast_registration_update st1)

/-- config.rs get_min_players_needed: clamp the environment value below at 2. -/
def get_min_players_needed (env_value : Nat) : Nat :=
  if env_value < 2 then 2 else env_value

/-- config.rs get_lobby_wait_time_seconds: clamp the environment value below at 1. -/
def get_lobby_wait_time_seconds (env_value : Nat) : Nat :=
  if env_value < 1 then 1 else env_value

/-- GameMediatorActor::new, from raw environment values; clamps
    max_players_allowed up to min_players_required. -/
def mediator_new (env_min env_max env_lobby : Nat) : MediatorState :=
  let min_players_required := get_min_players_needed env_min
  let max_players_allowed :=
    if env_max < min_players_required then min_players_required else env_max
  let lobby_wait_secs := get_lobby_wait_time_seconds env_lobby
  ⟨ServerState.registration, [], [], [], none,
    min_players_required, max_players_allowed, lobby_wait_secs, lobby_wait_secs⟩

/-- Every message the mediator mailbox can process, plus the 1-second tick. -/
inductive MediatorEvent where
  | connect (id : Uuid) (addr : Addr)
  | disconnect (id : Uuid) (addr : Addr)
  | connectViewer (addr : Addr)
  | disconnectViewer (addr : Addr)
  | register (id : Uuid) (data : JWTPlayerData)
  | unregister (id : Uuid)
  | gameInit (payload : Nat)
  | gameNextState (payload : Nat)
  | gamePlayerKilled (id : Uuid)
  | gameEnded (payload : Nat)
  | engineCrash
  | tick
deriving DecidableEq, Repr

/-- State transition of the mediator on one mailbox message or tick. -/
def mediator_step (st : MediatorState) : MediatorEvent → MediatorState
  | .connect id addr => (handle_connect st id addr).1
  | .disconnect id addr => handle_disconnect st id addr
  | .connectViewer a => (handle_connect_viewer st a).1
  | .disconnectViewer a => handle_disconnect_viewer st a
  | .register id data => (handle_register st id data).1
  | .unregister id => (handle_unregister st id).1
  | .gameInit p => (handle_init st p).1
  | .gameNextState p => (handle_next_state st p).1
  | .gamePlayerKilled id => (handle_player_killed st id).1
  | .gameEnded p => (handle_game_ended st p).1
  | .engineCrash => (handle_game_engine_crash st).1
  | .tick => (tick_registration_update st).1

/-- States of the mediator reachable from some freshly constructed actor by
    any sequence of handled messages and ticks. -/
inductive MediatorReachable : MediatorState → Prop
  | new_state (env_min env_max env_lobby : Nat) :
      MediatorReachable (mediator_new env_min env_max env_lobby)
  | next (s : MediatorState) (e : MediatorEvent) :
      MediatorReachable s → MediatorReachable (mediator_step s e)

/-! ### Auxiliary definitions used by the statements -/

/-- The last action submitted for a given id within a drained batch of
    channel entries (used to characterize the HashMap collect). -/
def last_action_for (pending : List (Uuid × PlayerAction)) (id : Uuid) :
    Option PlayerAction :=
  pending.foldl (fun acc p => if p.1 = id then some p.2 else acc) none

/-- A mediator state with two connected players (actors 8 and 9) and one
    connected viewer (55), used to exhibit the crash-notification behaviour. -/
def crash_example_state : MediatorState :=
  ⟨ServerState.running, [(1, 0), (2, 0)], [(1, 8), (2, 9)], [55], some [1, 2], 2, 4, 3, 0⟩

/-- A mediator state in a running match with lobby_wait_secs = 5 and
    secs_left = 0, used to exhibit the GameEnded handler behaviour. -/
def game_ended_example_state : MediatorState :=
  ⟨ServerState.running, [(1, 0)], [(1, 8)], [55], some [1], 2, 4, 5, 0⟩

/-- Inductive invariant of the mediator: the clamped configuration values
    and the guarantee that the countdown is positive whenever the lobby
    tick is allowed to decrement it. -/
def MediatorInv (s : MediatorState) : Prop :=
  1 ≤ s.lobby_wait_secs ∧ 2 ≤ s.min_players_required ∧
  (s.server_state = ServerState.registration →
    s.min_players_required ≤ s.registered.length → 1 ≤ s.secs_left)

/-! ### Shared lemmas about the association-list operations -/

theorem can_change_registration_iff (s : ServerState) :
    s.can_change_registration = true ↔ s = ServerState.registration := by
  cases s <;> simp [ServerState.can_change_registration]

theorem lookupKey_append (m1 m2 : List (Nat × α)) (k : Nat) :
    lookupKey (m1 ++ m2) k =
      match lookupKey m1 k with
      | some v => some v
      | none => lookupKey m2 k := by
  induction m1 with
  | nil => simp [lookupKey]
  | cons p m ih => by_cases h : p.1 = k <;> simp [lookupKey, h, ih]

theorem lookupKey_of_containsKey_eq_false (m : List (Nat × α)) (k : Nat)
    (h : containsKey m k = false) : lookupKey m k = none := by
  induction m with
  | nil => rfl
  | cons p m ih =>
    simp [containsKey] at h
    have h2 : containsKey m k = false := by
      simp [containsKey]
      exact h.2
    simp [lookupKey, h.1, ih h2]

theorem lookupKey_map_replace (m : List (Nat × α)) (k : Nat) (v : α) (id : Nat) :
    lookupKey (m.map (fun p => if p.1 = k then (k, v) else p)) id =
      if k = id then (if containsKey m k then some v else none)
      else lookupKey m id := by
  induction m with
  | nil => by_cases h : k = id <;> simp [lookupKey, containsKey, h]
  | cons p m ih =>
    by_cases hpk : p.1 = k
    · by_cases hk : k = id
      · subst hk
        simp [lookupKey, hpk, containsKey]
      · have hpid : ¬p.1 = id := by rw [hpk]; exact hk
        simp [lookupKey, hpk, hk, hpid, ih, containsKey]
    · by_cases hk : k = id
      · subst hk
        have hpid : ¬p.1 = k := hpk
        have hb : (p.1 == k) = false := by simp [hpid]
        simp [lookupKey, hpk, hpid, ih, containsKey]
        rw [hb]
        rfl
      · by_cases hpid : p.1 = id
        · have hik : ¬id = k := fun hh => hk hh.symm
          simp [lookupKey, hpk, hk, hpid, hik, ih]
        · simp [lookupKey, hpk, hk, hpid, ih]

theorem lookupKey_insertHM (m : List (Nat × α)) (k : Nat) (v : α) (id : Nat) :
    lookupKey (insertHM m k v) id = if k = id then some v else lookupKey m id := by
  unfold insertHM
  by_cases h : containsKey m k
  · simp [h, lookupKey_map_replace]
  · simp only [h, if_false, Bool.false_eq_true, lookupKey_append]
    by_cases hk : k = id
    · subst hk
      simp [lookupKey_of_containsKey_eq_false m k (by simpa using h), lookupKey]
    · cases hl : lookupKey m id <;> simp [lookupKey, hk, hl]

/-! ### Claim C4: do_action check order and per-tick action discipline -/

/-- C4: WebsocketActor::do_action applies its four checks in this fixed
    order, with the first failing check determining the rejection reason:
    killed, then server state not Running, then an action already sent this
    tick, then the channel send.  On success the pair is enqueued and
    action_sent is set; on every rejection the session state is unchanged
    and nothing is enqueued, so a second action within the same tick is
    rejected and at most one action per player is enqueued per tick. -/
theorem do_action_rules (pid : Uuid) (a : PlayerAction) (st : WsState) (ch : Bool) :
    (st.player_killed = true →
      do_action pid a st ch =
        (st, ActionOutcome.cannotSendAction "player has been killed", [])) ∧
    (st.player_killed = false → st.server_state ≠ ServerState.running →
      do_action pid a st ch =
        (st, ActionOutcome.cannotSendAction "game has not started yet", [])) ∧
    (st.player_killed = false → st.server_state = ServerState.running →
      st.action_sent = true →
      do_action pid a st ch =
        (st, ActionOutcome.cannotSendAction "already sent player action", [])) ∧
    (st.player_killed = false → st.server_state = ServerState.running →
      st.action_sent = false → ch = true →
      do_action pid a st ch =
        ({ st with action_sent := true }, ActionOutcome.enqueued, [(pid, a)])) ∧
    (st.player_killed = false → st.server_state = ServerState.running →
      st.action_sent = false → ch = false →
      do_action pid a st ch =
        (st, ActionOutcome.cannotSendAction "channel error", [])) ∧
    (∀ st2 out sent, do_action pid a st ch = (st2, out, sent) →
      out ≠ ActionOutcome.enqueued → st2 = st ∧ sent = []) ∧
    (∀ pid2 a2 ch2, (do_action pid a st ch).2.1 = ActionOutcome.enqueued →
      do_action pid2 a2 (do_action pid a st ch).1 ch2 =
        ((do_action pid a st ch).1,
          ActionOutcome.cannotSendAction "already sent player action", [])) := by
  rcases st with ⟨ss, as, pk⟩
  cases ss <;> cases as <;> cases pk <;> cases ch <;>
    simp [do_action, ServerState.can_send_action] <;>
    (intros; subst_vars; simp_all)

/-- C4 witness: in Running state with no action sent, a first action is
    enqueued; a killed player is rejected with the first reason. -/
theorem do_action_rules_witness :
    do_action 1 2 ⟨ServerState.running, false, false⟩ true =
      (⟨ServerState.running, true, false⟩, ActionOutcome.enqueued, [(1, 2)]) ∧
    do_action 1 2 ⟨ServerState.running, false, true⟩ true =
      (⟨ServerState.running, false, true⟩,
        ActionOutcome.cannotSendAction "player has been killed", []) :=
  ⟨(do_action_rules 1 2 ⟨ServerState.running, false, false⟩ true).2.2.2.1 rfl rfl rfl rfl,
   (do_action_rules 1 2 ⟨ServerState.running, false, true⟩ true).1 rfl⟩

/-! ### Claim C1: end-of-match condition of the tick loop -/

/-- C1 counterexample: with 10 seconds left and a single player remaining,
    the tick still sends NextState and the loop continues, so the match does
    not end when the number of remaining players drops to one. -/
theorem run_tick_no_early_end_cex :
    (run_tick ⟨10, [7]⟩ [] [] 0).1.players_remaining.length ≤ 1 ∧
    (run_tick ⟨10, [7]⟩ [] [] 0).2.1 = DriverMsg.nextState 0 [] 9 ∧
    (run_tick ⟨10, [7]⟩ [] [] 0).2.2 = true := by decide

/-- C1 (amended): in GamePlayer::run_internal a tick ends the match exactly
    when the decremented seconds_left reaches 0, independently of how many
    players remain; the loop exits exactly when GameEnded is sent; and the
    GameEnded message carries winners = players_remaining (as updated by the
    kill callbacks of this tick) together with the Update result. -/
theorem run_tick_end_iff_time (st : DriverTickState)
    (pending : List (Uuid × PlayerAction)) (kills : List Uuid) (gs : GameState) :
    ((run_tick st pending kills gs).2.1.isGameEnded = true ↔ st.seconds_left - 1 = 0) ∧
    ((run_tick st pending kills gs).2.2 = !(run_tick st pending kills gs).2.1.isGameEnded) ∧
    (∀ w g acts, (run_tick st pending kills gs).2.1 = DriverMsg.gameEnded w g acts →
      w = (run_tick st pending kills gs).1.players_remaining ∧ g = gs) := by
  unfold run_tick
  by_cases h : st.seconds_left - 1 > 0 <;>
    simp [h, DriverMsg.isGameEnded] <;> omega

/-- C1 witness: a tick at seconds_left = 1 with a kill recorded during
    Update ends the match with the surviving player as winner. -/
theorem run_tick_end_iff_time_witness :
    (run_tick ⟨1, [3, 4]⟩ [] [4] 5).2.1.isGameEnded = true ∧
    ([3] : List Uuid) = (run_tick ⟨1, [3, 4]⟩ [] [4] 5).1.players_remaining := by
  refine ⟨(run_tick_end_iff_time ⟨1, [3, 4]⟩ [] [4] 5).1.mpr (by decide), ?_⟩
  exact ((run_tick_end_iff_time ⟨1, [3, 4]⟩ [] [4] 5).2.2 [3] 5 [] (by decide)).1

/-! ### Claim C9: notifyPlayerKilled -/

/-- C9 counterexample: calling notifyPlayerKilled with an id that is absent
    from players_remaining leaves the set unchanged but still sends a
    PlayerKilled message to the mediator, so the call is not free of effect
    on the messages sent to the coordinator. -/
theorem notify_absent_still_sends_cex :
    (5 ∉ ([1, 2] : List Uuid)) ∧
    (notifyPlayerKilled [1, 2] 5).1 = [1, 2] ∧
    (notifyPlayerKilled [1, 2] 5).2 = [DriverMsg.playerKilled 5] ∧
    (notifyPlayerKilled [1, 2] 5).2 ≠ [] := by decide

/-- C9 (amended): notifyPlayerKilled removes the id from players_remaining
    and always enqueues one PlayerKilled broadcast to the coordinator, also
    when the id is already absent; only the set update is idempotent: with
    an absent id, players_remaining is unchanged. -/
theorem notifyPlayerKilled_spec (remaining : List Uuid) (id : Uuid) :
    (notifyPlayerKilled remaining id).2 = [DriverMsg.playerKilled id] ∧
    (notifyPlayerKilled remaining id).1 = remaining.filter (fun x => x ≠ id) ∧
    (id ∉ remaining → (notifyPlayerKilled remaining id).1 = remaining) := by
  refine ⟨rfl, rfl, fun h => ?_⟩
  simp only [notifyPlayerKilled]
  rw [List.filter_eq_self]
  intro x hx
  simp only [ne_eq, decide_eq_true_eq]
  rintro rfl
  exact h hx

/-- C9 witness: removing an absent id leaves the remaining set unchanged
    while the PlayerKilled message is still produced. -/
theorem notifyPlayerKilled_spec_witness :
    (notifyPlayerKilled [1, 2] 7).1 = [1, 2] ∧
    (notifyPlayerKilled [1, 2] 7).2 = [DriverMsg.playerKilled 7] :=
  ⟨(notifyPlayerKilled_spec [1, 2] 7).2.2 (by decide),
   (notifyPlayerKilled_spec [1, 2] 7).1⟩

/-! ### Claim C2: crash notification fan-out -/

/-- C2: at the failing input (two connected players with actor handles 8
    and 9, one connected viewer 55) the GameEngineCrash handler moves the
    mediator to FatalError and clears the player order, but it notifies only
    the entries of the connection table: no message of any kind is addressed
    to the viewer, whose entry stays in the viewer set, so the viewer socket
    is never closed — although ViewerActor implements a crash handler that
    would close it. -/
theorem engine_crash_skips_viewers :
    (handle_game_engine_crash crash_example_state).1.server_state = ServerState.fatalError ∧
    (handle_game_engine_crash crash_example_state).1.player_order = none ∧
    (handle_game_engine_crash crash_example_state).2 =
      [Effect.toActor 8 OutMsg.engineCrashNotice,
       Effect.toActor 9 OutMsg.engineCrashNotice] ∧
    (handle_game_engine_crash crash_example_state).1.viewers = [55] ∧
    ((handle_game_engine_crash crash_example_state).2.all
      (fun e => !e.isToViewer)) = true := by decide

/-! ### Claim C6: GameEnded handler -/

/-- C6 counterexample: a GameEnded received with lobby_wait_secs = 5 and
    secs_left = 0 leaves secs_left at 0; the handler does not reset the
    countdown to lobby_wait_secs. -/
theorem game_ended_no_countdown_reset_cex :
    (handle_game_ended game_ended_example_state 0).1.server_state = ServerState.registration ∧
    (handle_game_ended game_ended_example_state 0).1.lobby_wait_secs = 5 ∧
    (handle_game_ended game_ended_example_state 0).1.secs_left = 0 ∧
    (handle_game_ended game_ended_example_state 0).1.secs_left ≠
      (handle_game_ended game_ended_example_state 0).1.lobby_wait_secs := by decide

/-- C6 (amended): on GameEnded the mediator clears the registration set,
    clears the player order and returns to Registration before the
    broadcast is dispatched (the broadcast fans out over the post-mutation
    actor and viewer tables), leaving the connection table and viewer set
    unchanged; secs_left is NOT reset to lobby_wait_secs — it keeps its
    previous value and is only reset by a later registration crossing
    min_players_required. -/
theorem handle_game_ended_spec (st : MediatorState) (payload : Nat) :
    (handle_game_ended st payload).1.registered = [] ∧
    (handle_game_ended st payload).1.player_order = none ∧
    (handle_game_ended st payload).1.server_state = ServerState.registration ∧
    (handle_game_ended st payload).1.secs_left = st.secs_left ∧
    (handle_game_ended st payload).1.lobby_wait_secs = st.lobby_wait_secs ∧
    (handle_game_ended st payload).1.actors = st.actors ∧
    (handle_game_ended st payload).1.viewers = st.viewers ∧
    (handle_game_ended st payload).2 =
      broadcast_all (handle_game_ended st payload).1
        (OutMsg.gameEndedBroadcast payload) := by
  simp [handle_game_ended]

/-! ### Claim C3: the per-tick action map -/

/-- C3 counterexample: when the same player id occurs twice in the drained
    channel contents, the HashMap collect keeps the LAST submitted action,
    not the first one. -/
theorem collect_actions_keeps_last_cex :
    lookupKey (collect_player_actions [(1, 10), (1, 20)] [1]) 1 = some 20 ∧
    lookupKey (collect_player_actions [(1, 10), (1, 20)] [1]) 1 ≠ some 10 := by decide

theorem foldl_insertHM_lookup (l : List (Uuid × PlayerAction))
    (m : List (Uuid × PlayerAction)) (id : Uuid) :
    lookupKey (l.foldl (fun acc p => insertHM acc p.1 p.2) m) id =
      match last_action_for l id with
      | some a => some a
      | none => lookupKey m id := by
  induction l using List.reverseRecOn generalizing m with
  | nil => simp [last_action_for]
  | append_singleton l p ih =>
    simp only [List.foldl_append, List.foldl_cons, List.foldl_nil,
      last_action_for, lookupKey_insertHM, ih]
    by_cases h : p.1 = id
    · simp [h]
    · have h2 : ¬id = p.1 := fun hh => h hh.symm
      simp [last_action_for, h, h2]

theorem last_action_for_append_singleton (l : List (Uuid × PlayerAction))
    (p : Uuid × PlayerAction) (id : Uuid) :
    last_action_for (l ++ [p]) id =
      if p.1 = id then some p.2 else last_action_for l id := by
  simp only [last_action_for, List.foldl_append, List.foldl_cons, List.foldl_nil]

theorem last_action_for_filter (pending : List (Uuid × PlayerAction))
    (remaining : List Uuid) (id : Uuid) :
    last_action_for (pending.filter (fun p => remaining.contains p.1)) id =
      if remaining.contains id then last_action_for pending id else none := by
  induction pending using List.reverseRecOn with
  | nil => simp [last_action_for]
  | append_singleton l p ih =>
    by_cases hp : remaining.contains p.1 <;> by_cases hid : p.1 = id
    · subst hid
      have hp' : p.1 ∈ remaining := by simpa using hp
      simp [List.filter_append, List.filter, hp, hp', last_action_for_append_singleton]
    · have hp' : p.1 ∈ remaining := by simpa using hp
      simp [List.filter_append, List.filter, hp', hid, last_action_for_append_singleton]
      simpa using ih
    · subst hid
      have hp' : ¬p.1 ∈ remaining := by simpa using hp
      simp [List.filter_append, List.filter, hp', last_action_for_append_singleton]
      simpa [hp'] using ih
    · have hp' : ¬p.1 ∈ remaining := by simpa using hp
      simp [List.filter_append, List.filter, hp', hid, last_action_for_append_singleton]
      simpa using ih

/-- C3 (amended): the action map handed to the scripted Update equals the
    drained channel contents restricted to ids in players_remaining, and
    when the same player id occurs in several drained pairs the LAST
    submitted action for that id is kept and the earlier ones are
    discarded: the lookup of any id in the collected map is the last action
    that id submitted if the id is still remaining, and nothing otherwise. -/
theorem collect_player_actions_spec (pending : List (Uuid × PlayerAction))
    (remaining : List Uuid) (id : Uuid) :
    lookupKey (collect_player_actions pending remaining) id =
      if remaining.contains id then last_action_for pending id else none := by
  unfold collect_player_actions
  rw [foldl_insertHM_lookup, last_action_for_filter]
  by_cases h : id ∈ remaining <;>
    cases hl : last_action_for pending id <;> simp [h, hl, lookupKey]

/-! ### Claim C8: retry policy of the engine driver -/

theorem trap_errors_go_ok (attempts : Nat → Except Nat GameState)
    (budget tries : Nat) (r : GameState) (h : attempts tries = Except.ok r) :
    trap_errors_go attempts budget tries = Except.ok r := by
  rw [trap_errors_go, h]

theorem trap_errors_go_success (attempts : Nat → Except Nat GameState)
    (budget tries k : Nat) (r : GameState) (hk : k ≤ budget)
    (hfail : ∀ j, j < k → ∃ e, attempts (tries + j) = Except.error e)
    (hok : attempts (tries + k) = Except.ok r) :
    trap_errors_go attempts budget tries = Except.ok r := by
  induction k generalizing budget tries with
  | zero => exact trap_errors_go_ok attempts budget tries r hok
  | succ k ih =>
    obtain ⟨b, rfl⟩ : ∃ b, budget = b + 1 :=
      ⟨budget - 1, by omega⟩
    obtain ⟨e, he⟩ := hfail 0 (Nat.succ_pos k)
    rw [trap_errors_go]
    rw [show tries + 0 = tries by omega] at he
    rw [he]
    exact ih b (tries + 1) (by omega)
      (fun j hj => by
        have := hfail (j + 1) (by omega)
        simpa [Nat.add_assoc, Nat.add_comm 1 j] using this)
      (by rw [show tries + 1 + k = tries + (k + 1) by omega]; exact hok)

theorem trap_errors_go_all_fail (attempts : Nat → Except Nat GameState)
    (es : Nat → Nat) (budget tries : Nat)
    (h : ∀ j, j ≤ budget → attempts (tries + j) = Except.error (es (tries + j))) :
    trap_errors_go attempts budget tries = Except.error (es (tries + budget)) := by
  induction budget generalizing tries with
  | zero =>
    have h0 := h 0 (Nat.le_refl 0)
    rw [show tries + 0 = tries by omega] at h0 ⊢
    rw [trap_errors_go, h0]
  | succ b ih =>
    have h0 := h 0 (Nat.zero_le _)
    rw [show tries + 0 = tries by omega] at h0
    rw [trap_errors_go, h0]
    have := ih (tries + 1)
      (fun j hj => by
        have := h (j + 1) (by omega)
        simpa [Nat.add_assoc, Nat.add_comm 1 j] using this)
    rw [show tries + 1 + b = tries + (b + 1) by omega] at this
    exact this

/-- C8: every scripted Init or Update invocation is retried up to
    MAX_TRIES = 5 times: if some attempt succeeds within the budget its
    result is used and no error is surfaced, while if the first five
    attempts all fail, trap_errors returns the error of the fifth attempt
    and run_game surfaces exactly one GameEngineCrash message to the
    coordinator.  (In the embedding, all mediator and session handlers are
    single-shot functions: retrying exists only here.) -/
theorem trap_errors_retry_policy (attempts : Nat → Except Nat GameState) :
    (∀ k r, k < MAX_TRIES → (∀ j, j < k → ∃ e, attempts j = Except.error e) →
      attempts k = Except.ok r →
      trap_errors MAX_TRIES attempts = Except.ok r) ∧
    (∀ es : Nat → Nat, (∀ j, j < MAX_TRIES → attempts j = Except.error (es j)) →
      trap_errors MAX_TRIES attempts = Except.error (es (MAX_TRIES - 1)) ∧
      run_game_msgs (Except.error (es (MAX_TRIES - 1))) = [DriverMsg.engineCrash]) := by
  constructor
  · intro k r hk hfail hok
    exact trap_errors_go_success attempts (MAX_TRIES - 1) 0 k r
      (by simp [MAX_TRIES] at hk ⊢; omega)
      (fun j hj => by simpa using hfail j hj)
      (by simpa using hok)
  · intro es h
    refine ⟨?_, rfl⟩
    have := trap_errors_go_all_fail attempts es (MAX_TRIES - 1) 0
      (fun j hj => by
        have := h j (by simp [MAX_TRIES] at hj ⊢; omega)
        simpa using this)
    simpa using this

/-- C8 witness: with a script failing twice then succeeding, the third
    result is used; with a script that always fails, the error of the
    fifth attempt is surfaced. -/
theorem trap_errors_retry_policy_witness :
    trap_errors MAX_TRIES (fun n => if n < 2 then Except.error n else Except.ok 42) =
      Except.ok 42 ∧
    trap_errors MAX_TRIES (fun n => Except.error n) = Except.error 4 := by
  constructor
  · exact (trap_errors_retry_policy
      (fun n => if n < 2 then Except.error n else Except.ok 42)).1 2 42
      (by decide) (fun j hj => ⟨j, by simp [hj]⟩) (by rfl)
  · have h := (trap_errors_retry_policy (fun n => Except.error n)).2
      (fun n => n) (fun j hj => rfl)
    simpa [MAX_TRIES] using h.1

/-! ### Closed forms of the register handler (shared) -/

theorem handle_register_not_reg (st : MediatorState) (id : Uuid) (data : JWTPlayerData)
    (h : st.server_state ≠ ServerState.registration) :
    handle_register st id data = (st, [], RegisterResponse.gameAlreadyStarted) := by
  have hc : st.server_state.can_change_registration = false := by
    cases hss : st.server_state <;> simp_all [ServerState.can_change_registration]
  simp [handle_register, hc]

theorem handle_register_already (st : MediatorState) (id : Uuid) (data : JWTPlayerData)
    (hss : st.server_state = ServerState.registration)
    (hreg : containsKey st.registered id = true) :
    handle_register st id data =
      (st, broadcast_registration_update st, RegisterResponse.success) := by
  have hc : st.server_state.can_change_registration = true := by rw [hss]; rfl
  have hcond : ¬(st.registered.length < st.min_players_required ∧
      st.min_players_required ≤ st.registered.length) := by omega
  simp [handle_register, hc, hreg, hcond]

theorem handle_register_too_many (st : MediatorState) (id : Uuid) (data : JWTPlayerData)
    (hss : st.server_state = ServerState.registration)
    (hreg : containsKey st.registered id = false)
    (hmax : st.max_players_allowed ≤ st.registered.length) :
    handle_register st id data =
      (st, [], RegisterResponse.tooManyRegistered st.max_players_allowed) := by
  have hc : st.server_state.can_change_registration = true := by rw [hss]; rfl
  simp [handle_register, hc, hreg, hmax]

theorem handle_register_new (st : MediatorState) (id : Uuid) (data : JWTPlayerData)
    (hss : st.server_state = ServerState.registration)
    (hreg : containsKey st.registered id = false)
    (hmax : st.registered.length < st.max_players_allowed) :
    handle_register st id data =
      (if st.registered.length + 1 = st.min_players_required then
        ({ st with registered := st.registered ++ [(id, data)],
                   secs_left := st.lobby_wait_secs },
         broadcast_registration_update
           { st with registered := st.registered ++ [(id, data)],
                     secs_left := st.lobby_wait_secs },
         RegisterResponse.success)
       else
        ({ st with registered := st.registered ++ [(id, data)] },
         broadcast_registration_update
           { st with registered := st.registered ++ [(id, data)] },
         RegisterResponse.success)) := by
  have hc : st.server_state.can_change_registration = true := by rw [hss]; rfl
  have hins : insertHM st.registered id data = st.registered ++ [(id, data)] := by
    simp [insertHM, hreg]
  have hcond : (st.registered.length < st.min_players_required ∧
      st.min_players_required ≤ st.registered.length + 1) ↔
      st.registered.length + 1 = st.min_players_required := by omega
  by_cases hcross : st.registered.length + 1 = st.min_players_required
  · have hlt : st.registered.length < st.min_players_required := by omega
    have hnle : ¬st.min_players_required ≤ st.registered.length := by omega
    simp [handle_register, hc, hreg, hins, hcond, hcross, Nat.not_le.mpr hmax, hlt, hnle]
  · simp [handle_register, hc, hreg, hins, hcond, hcross, Nat.not_le.mpr hmax]

/-! ### Claim C5: register handler cases -/

/-- C5: for every Register message: outside the Registration state the
    response is GameAlreadyStarted and nothing changes; re-registering an
    already-registered id answers Success without touching the stored
    registration data; a new id when the set already holds
    max_players_allowed entries answers TooManyRegistered with the
    configured maximum and changes nothing; otherwise the pair is added and
    the response is Success. -/
theorem handle_register_cases (st : MediatorState) (id : Uuid) (data : JWTPlayerData) :
    (st.server_state ≠ ServerState.registration →
      handle_register st id data = (st, [], RegisterResponse.gameAlreadyStarted)) ∧
    (st.server_state = ServerState.registration →
      containsKey st.registered id = true →
      (handle_register st id data).2.2 = RegisterResponse.success ∧
      (handle_register st id data).1.registered = st.registered) ∧
    (st.server_state = ServerState.registration →
      containsKey st.registered id = false →
      st.max_players_allowed ≤ st.registered.length →
      handle_register st id data =
        (st, [], RegisterResponse.tooManyRegistered st.max_players_allowed)) ∧
    (st.server_state = ServerState.registration →
      containsKey st.registered id = false →
      st.registered.length < st.max_players_allowed →
      (handle_register st id data).2.2 = RegisterResponse.success ∧
      (handle_register st id data).1.registered = st.registered ++ [(id, data)]) := by
  refine ⟨fun h => handle_register_not_reg st id data h, ?_, ?_, ?_⟩
  · intro hss hreg
    rw [handle_register_already st id data hss hreg]
    exact ⟨rfl, rfl⟩
  · intro hss hreg hmax
    exact handle_register_too_many st id data hss hreg hmax
  · intro hss hreg hmax
    rw [handle_register_new st id data hss hreg hmax]
    by_cases hcross : st.registered.length + 1 = st.min_players_required <;>
      simp [hcross]

/-- C5 witness: a register in the Running state is rejected with
    GameAlreadyStarted and leaves the state untouched; a first register on a
    fresh mediator appends the pair. -/
theorem handle_register_cases_witness :
    handle_register ⟨ServerState.running, [], [], [], none, 2, 4, 3, 3⟩ 1 5 =
      (⟨ServerState.running, [], [], [], none, 2, 4, 3, 3⟩, [],
        RegisterResponse.gameAlreadyStarted) ∧
    (handle_register (mediator_new 2 4 3) 1 5).1.registered =
      (mediator_new 2 4 3).registered ++ [(1, 5)] :=
  ⟨(handle_register_cases ⟨ServerState.running, [], [], [], none, 2, 4, 3, 3⟩ 1 5).1
      (by decide),
   ((handle_register_cases (mediator_new 2 4 3) 1 5).2.2.2
      (by decide) (by decide) (by decide)).2⟩

/-! ### Claim C7: countdown reset on crossing min_players_required -/

/-- C7: a register processed in the Registration state that moves the
    registration count from strictly below min_players_required to at least
    min_players_required sets secs_left to lobby_wait_secs, and the
    registration-update broadcast dispatched by the same handler already
    carries the reset countdown; a register that does not cross the
    boundary (including a re-registration while the count is already at or
    above the minimum) leaves secs_left unchanged. -/
theorem register_crossing_resets_countdown (st : MediatorState) (id : Uuid)
    (data : JWTPlayerData) :
    (st.server_state = ServerState.registration →
      st.registered.length < st.min_players_required →
      st.min_players_required ≤ (handle_register st id data).1.registered.length →
      (handle_register st id data).1.secs_left = st.lobby_wait_secs ∧
      (handle_register st id data).2.1 =
        broadcast_all (handle_register st id data).1
          (OutMsg.gameStartingSoon (handle_register st id data).1.registered
            st.min_players_required st.lobby_wait_secs)) ∧
    (st.server_state = ServerState.registration →
      ¬(st.registered.length < st.min_players_required ∧
        st.min_players_required ≤ (handle_register st id data).1.registered.length) →
      (handle_register st id data).1.secs_left = st.secs_left) := by
  constructor
  · intro hss hbefore hafter
    by_cases hreg : containsKey st.registered id = true
    · rw [handle_register_already st id data hss hreg] at hafter ⊢
      exact absurd hafter (by simpa using Nat.not_le.mpr hbefore)
    · have hreg' : containsKey st.registered id = false := by simpa using hreg
      by_cases hmax : st.max_players_allowed ≤ st.registered.length
      · rw [handle_register_too_many st id data hss hreg' hmax] at hafter
        exact absurd hafter (by simpa using Nat.not_le.mpr hbefore)
      · have hmax' : st.registered.length < st.max_players_allowed := by omega
        rw [handle_register_new st id data hss hreg' hmax'] at hafter ⊢
        have hcross : st.registered.length + 1 = st.min_players_required := by
          by_cases hcr : st.registered.length + 1 = st.min_players_required
          · exact hcr
          · exfalso
            rw [if_neg hcr] at hafter
            simp at hafter
            omega
        rw [if_pos hcross] at hafter ⊢
        refine ⟨rfl, ?_⟩
        simp only [broadcast_registration_update]
        rw [if_neg (by simp; omega)]
  · intro hss hnocross
    by_cases hreg : containsKey st.registered id = true
    · rw [handle_register_already st id data hss hreg]
    · have hreg' : containsKey st.registered id = false := by simpa using hreg
      by_cases hmax : st.max_players_allowed ≤ st.registered.length
      · rw [handle_register_too_many st id data hss hreg' hmax]
      · have hmax' : st.registered.length < st.max_players_allowed := by omega
        rw [handle_register_new st id data hss hreg' hmax'] at hnocross ⊢
        by_cases hcross : st.registered.length + 1 = st.min_players_required
        · exfalso
          rw [if_pos hcross] at hnocross
          simp at hnocross
          omega
        · rw [if_neg hcross]

/-- C7 witness: with min_players_required = 2, one player registered and a
    stale countdown of 4, a second registration crosses the minimum and
    resets secs_left to lobby_wait_secs = 9. -/
theorem register_crossing_witness :
    (handle_register ⟨ServerState.registration, [(1, 0)], [], [], none, 2, 4, 9, 4⟩
      2 0).1.secs_left = 9 :=
  ((register_crossing_resets_countdown
      ⟨ServerState.registration, [(1, 0)], [], [], none, 2, 4, 9, 4⟩ 2 0).1
    rfl (by decide) (by decide)).1

/-! ### Claim C10: the lobby countdown never underflows -/

theorem mediator_reachable_inv (s : MediatorState) (h : MediatorReachable s) :
    MediatorInv s := by
  induction h with
  | new_state emin emax elob =>
    refine ⟨?_, ?_, fun _ _ => ?_⟩ <;>
      simp [mediator_new, get_min_players_needed, get_lobby_wait_time_seconds] <;>
      split <;> omega
  | next s e hprev ih =>
    obtain ⟨hl, hm, hs⟩ := ih
    cases e with
    | connect id addr =>
      show MediatorInv (handle_connect s id addr).1
      unfold handle_connect
      split_ifs <;> exact ⟨hl, hm, hs⟩
    | disconnect id addr =>
      show MediatorInv (handle_disconnect s id addr)
      unfold handle_disconnect
      cases lookupKey s.actors id with
      | none => exact ⟨hl, hm, hs⟩
      | some a =>
        simp only []
        split_ifs <;> exact ⟨hl, hm, hs⟩
    | connectViewer a =>
      show MediatorInv (handle_connect_viewer s a).1
      unfold handle_connect_viewer
      split_ifs <;> exact ⟨hl, hm, hs⟩
    | disconnectViewer a =>
      show MediatorInv (handle_disconnect_viewer s a)
      exact ⟨hl, hm, hs⟩
    | register id data =>
      show MediatorInv (handle_register s id data).1
      by_cases hss : s.server_state = ServerState.registration
      · by_cases hreg : containsKey s.registered id = true
        · rw [handle_register_already s id data hss hreg]
          exact ⟨hl, hm, hs⟩
        · have hreg' : containsKey s.registered id = false := by simpa using hreg
          by_cases hmax : s.max_players_allowed ≤ s.registered.length
          · rw [handle_register_too_many s id data hss hreg' hmax]
            exact ⟨hl, hm, hs⟩
          · have hmax' : s.registered.length < s.max_players_allowed := by omega
            rw [handle_register_new s id data hss hreg' hmax']
            by_cases hcross : s.registered.length + 1 = s.min_players_required
            · rw [if_pos hcross]
              exact ⟨hl, hm, fun _ _ => hl⟩
            · rw [if_neg hcross]
              refine ⟨hl, hm, fun h1 h2 => ?_⟩
              apply hs h1
              simp only [List.length_append, List.length_cons, List.length_nil] at h2
              omega
      · rw [handle_register_not_reg s id data hss]
        exact ⟨hl, hm, hs⟩
    | unregister id =>
      show MediatorInv (handle_unregister s id).1
      unfold handle_unregister
      split_ifs with hnr
      · exact ⟨hl, hm, hs⟩
      · refine ⟨hl, hm, fun h1 h2 => ?_⟩
        apply hs h1
        calc s.min_players_required ≤ (removeKey s.registered id).length := h2
          _ ≤ s.registered.length := List.length_filter_le _ _
    | gameInit p =>
      show MediatorInv (handle_init s p).1
      exact ⟨hl, hm, fun h1 => by simp [handle_init] at h1⟩
    | gameNextState p =>
      show MediatorInv (handle_next_state s p).1
      exact ⟨hl, hm, hs⟩
    | gamePlayerKilled id =>
      show MediatorInv (handle_player_killed s id).1
      exact ⟨hl, hm, hs⟩
    | gameEnded p =>
      show MediatorInv (handle_game_ended s p).1
      refine ⟨hl, hm, fun _ h2 => ?_⟩
      simp [handle_game_ended] at h2
      omega
    | engineCrash =>
      show MediatorInv (handle_game_engine_crash s).1
      exact ⟨hl, hm, fun h1 => by simp [handle_game_engine_crash] at h1⟩
    | tick =>
      show MediatorInv (tick_registration_update s).1
      unfold tick_registration_update
      split_ifs with h1 h2
      · exact ⟨hl, hm, hs⟩
      · exact ⟨hl, hm, hs⟩
      · have hreg : s.server_state = ServerState.registration := by
          by_contra hc
          exact h1 hc
        have hge : s.min_players_required ≤ s.registered.length := by omega
        have hpos : 1 ≤ s.secs_left := hs hreg hge
        show MediatorInv
          (if s.secs_left - 1 = 0 then start_game { s with secs_left := s.secs_left - 1 }
           else ({ s with secs_left := s.secs_left - 1 },
                 broadcast_registration_update { s with secs_left := s.secs_left - 1 })).1
        split_ifs with h3
        · unfold start_game
          exact ⟨hl, hm, fun h4 => by simp at h4⟩
        · refine ⟨hl, hm, fun _ _ => ?_⟩
          simp only [] at h3 ⊢
          omega

/-- C10: in every mediator state reachable from a fresh mediator by any
    sequence of handled messages and 1-second lobby ticks, if the server is
    in the Registration state with at least min_players_required
    registrations then secs_left is at least 1, so the unchecked u32
    decrement performed by tick_registration_update never underflows. -/
theorem secs_left_no_underflow (s : MediatorState) (h : MediatorReachable s)
    (hstate : s.server_state = ServerState.registration)
    (hcount : s.min_players_required ≤ s.registered.length) :
    1 ≤ s.secs_left :=
  (mediator_reachable_inv s h).2.2 hstate hcount

/-- C10 witness: after two registrations on a fresh mediator with
    min_players_required = 2 the countdown is positive. -/
theorem secs_left_no_underflow_witness :
    1 ≤ (mediator_step (mediator_step (mediator_new 2 4 3)
          (MediatorEvent.register 1 0)) (MediatorEvent.register 2 0)).secs_left :=
  secs_left_no_underflow _
    (MediatorReachable.next _ _ (MediatorReachable.next _ _
      (MediatorReachable.new_state 2 4 3)))
    (by decide) (by decide)

end LinesOfBattle
